import Mathlib

/-!
Verification development for the Agricultural-Data-Analytics repository.

The repository's recurring core is a field-centric multi-source join: an
authoritative field-boundary table (keyed by `field_id`) is widened by
left-joining per-field attribute tables (soil, weather, crops), after the
attribute tables are grouped to one row per `field_id`.  The concrete code
lives in `src/scripts/visualize_dashboard.py` (`create_dashboard`),
`src/scripts/a2_merge_data.py` (`main`),
`src/packages/agri-data-toolkit/agri_toolkit/boundaries/client.py`
(`BoundaryClient.standardize_schema`) and
`src/skills/field-boundaries/scripts/_downloader.py`
(`FieldBoundaryDownloader`).

Tables are shallowly embedded as a list of column names plus rows of cells,
with the join key (`field_id`) carried separately on each row, mirroring how
every script merges `on="field_id"`.  Cells mirror the pandas dtypes that
occur in the scripts: missing (NaN/None), string (object), integer (int64)
and rational (float64 values are modelled exactly over ℚ).
-/

/-- A single table cell, mirroring the pandas value kinds used by the
scripts: missing value (NaN/None), string, int64 and float64 (modelled
exactly as a rational). -/
inductive Cell where
  | null
  | str (s : String)
  | int (i : Int)
  | num (q : ℚ)
deriving DecidableEq

/-- A tabular dataset: named non-key columns and rows of
`(field_id, cells)`, the cells aligned with `cols`.  This mirrors a pandas
DataFrame whose join key column `field_id` is singled out, exactly as every
script merges `on="field_id"`. -/
structure DF where
  cols : List String
  rows : List (String × List Cell)
deriving DecidableEq

/-- The `field_id` key column of a table, in row order. -/
def DF.keys (df : DF) : List String := df.rows.map Prod.fst

/-- Distinct elements of a list, keeping the first occurrence of each
(helper for the group-by key set). -/
def dedupFirstAux [BEq α] : List α → List α → List α
  | [], _ => []
  | k :: rest, seen =>
    if seen.contains k then dedupFirstAux rest seen
    else k :: dedupFirstAux rest (k :: seen)

/-- Distinct elements of a list in order of first appearance. -/
def dedupFirst [BEq α] (l : List α) : List α := dedupFirstAux l []

/-- Insertion into a list sorted by the boolean relation `le`. -/
def insertLe (le : α → α → Bool) (x : α) : List α → List α
  | [] => [x]
  | y :: ys => if le x y then x :: y :: ys else y :: insertLe le x ys

/-- Insertion sort by the boolean relation `le` (pandas `groupby` sorts the
group keys; `pivot` sorts both the index and the column values). -/
def sortLe (le : α → α → Bool) : List α → List α
  | [] => []
  | x :: xs => insertLe le x (sortLe le xs)

/-- The sorted distinct `field_id` values of a table: the index produced by
`df.groupby('field_id')` (pandas sorts group keys by default). -/
def sortedKeys (df : DF) : List String :=
  sortLe (fun a b => a ≤ b) (dedupFirst df.keys)

/-- First non-missing cell of a list, `Cell.null` if all are missing.
pandas `GroupBy.first` computes, per column, the first non-null entry of
the group (it skips NaN; it does not keep the first row as a whole). -/
def firstNonNull : List Cell → Cell
  | [] => .null
  | .null :: rest => firstNonNull rest
  | c :: _ => c

/-- The cell rows of `df` whose key equals `k`, in table order. -/
def rowsFor (df : DF) (k : String) : List (List Cell) :=
  (df.rows.filter (fun p => p.1 == k)).map Prod.snd

/-- Embeds `df.groupby('field_id').first().reset_index()` — one row per distinct
`field_id` (sorted), each column holding the first non-null value of that
column within the group (`visualize_dashboard.py` lines 25 and 48). -/
def groupFirst (df : DF) : DF :=
  { cols := df.cols
    rows := (sortedKeys df).map (fun k =>
      (k, (List.range df.cols.length).map (fun i =>
            firstNonNull ((rowsFor df k).map (fun cs => cs.getD i .null))))) }

/-- Rename every non-key column by prepending `tag`
(`soil_cols = {c: f"Soil_{c}" ...}` / `crop_cols = {c: f"Crop_{c}" ...}`). -/
def tagCols (tag : String) (df : DF) : DF :=
  { df with cols := df.cols.map (fun c => tag ++ c) }

/-- pandas `left.merge(right, on="field_id", how="left")`: every left row
is kept in order; a left row is output once per matching right row, or once
with nulls in the right columns when no right row matches. -/
def mergeLeft (l r : DF) : DF :=
  { cols := l.cols ++ r.cols
    rows := l.rows.flatMap (fun p =>
      match r.rows.filter (fun q => q.1 == p.1) with
      | [] => [(p.1, p.2 ++ r.cols.map (fun _ => Cell.null))]
      | ms => ms.map (fun q => (p.1, p.2 ++ q.2))) }

/-- Numeric view of a cell (int64 or float64); `none` for missing values,
which pandas aggregations skip. -/
def toRatCell : Cell → Option ℚ
  | .int i => some (i : ℚ)
  | .num q => some q
  | _ => none

/-- pandas `mean` of a column within a group: NaN when every value is
missing, otherwise the mean of the non-missing values. -/
def meanCell (l : List ℚ) : Cell :=
  match l with
  | [] => .null
  | _ => .num (l.sum / (l.length : ℚ))

/-- Whether a cell holds a string (an object-dtype value in pandas). -/
def isStrCell : Cell → Bool
  | .str _ => true
  | _ => false

/-- Whether a cell holds a number (int64 or float64). -/
def isNumCell : Cell → Bool
  | .int _ => true
  | .num _ => true
  | _ => false

/-- pandas `sum` of one group of a column (skipna): missing values are
skipped; an all-numeric group sums (an empty group sums to 0); on an
object-dtype column an all-string group concatenates its strings; a group
mixing strings and numbers raises TypeError, modelled as `none`. -/
def sumCellObj (cells : List Cell) : Option Cell :=
  let vs := cells.filter (fun c => !(c == Cell.null))
  if vs.isEmpty then some (.num 0)
  else if vs.all isNumCell then some (.num (vs.filterMap toRatCell).sum)
  else if vs.all isStrCell then
    some (.str (vs.foldl (fun acc c =>
      match c with | .str s => acc ++ s | _ => acc) ""))
  else none

/-- Embeds `weather_df.groupby('field_id').agg({'T2M': 'mean', 'PRECTOTCORR':
'sum'}).reset_index()` (`visualize_dashboard.py` lines 36-39).  Returns
`none` when the aggregation raises: a missing column (KeyError); `'mean'`
on an object-dtype `T2M` column, i.e. one holding any string (TypeError);
or `'sum'` of a group mixing strings and numbers (TypeError).  `'sum'` of
an all-string group concatenates and succeeds, as pandas does on object
columns.  `create_dashboard` catches any exception and skips the weather
layer. -/
def aggWeather (df : DF) : Option DF :=
  match df.cols.findIdx? (· == "T2M"), df.cols.findIdx? (· == "PRECTOTCORR") with
  | some it, some ip =>
    let colCells := fun (k : String) (i : Nat) =>
      (rowsFor df k).map (fun cs => cs.getD i .null)
    if df.rows.any (fun p => isStrCell (p.2.getD it .null)) then none
    else if (sortedKeys df).all (fun k => (sumCellObj (colCells k ip)).isSome) then
      some { cols := ["T2M", "PRECTOTCORR"]
             rows := (sortedKeys df).map (fun k =>
               (k, [meanCell ((colCells k it).filterMap toRatCell),
                    (sumCellObj (colCells k ip)).getD Cell.null])) }
    else none
  | _, _ => none

/-- Embeds `weather_summary.rename(columns={'T2M': 'Avg_Temp_C', 'PRECTOTCORR':
'Total_Precip_mm'})` (`visualize_dashboard.py` line 40). -/
def weatherRename (df : DF) : DF :=
  { df with cols := df.cols.map (fun c =>
      if c == "T2M" then "Avg_Temp_C"
      else if c == "PRECTOTCORR" then "Total_Precip_mm" else c) }

/-- The state of one attribute-source file when `create_dashboard` runs:
`absent` — the file is missing or at most 10 bytes (the `Path.exists` /
`st_size` guard fails, the source is not attempted); `emptyData` — the
read raised `pd.errors.EmptyDataError` (the only exception the soil
block's `except` catches); `raised` — reading or processing raised some
other exception, e.g. a ParserError on a malformed CSV or a KeyError on a
missing `field_id` column (uncaught in the soil block, so it aborts the
run; caught in the weather and crop blocks, whose `except Exception`
catches everything); `ok df` — the file was read and processed as the
table `df`. -/
inductive SourceInput where
  | absent
  | emptyData
  | raised
  | ok (df : DF)
deriving DecidableEq

/-- The soil block of `create_dashboard` (`visualize_dashboard.py` lines
20-31): group the soil table to one row per `field_id` keeping first
non-null values, tag its columns `Soil_`, left-join onto the running
table.  An absent soil file and an `EmptyDataError` read (the only
exception the block's `except` catches) are skipped; any other exception
propagates and aborts the run, modelled as `none`. -/
def soilStep (g : DF) : SourceInput → Option DF
  | .ok s => some (mergeLeft g (tagCols "Soil_" (groupFirst s)))
  | .raised => none
  | _ => some g

/-- The weather block of `create_dashboard` (lines 33-43): aggregate
(mean temperature, summed precipitation) per `field_id`, rename the
columns, left-join.  The block's `except Exception` catches every
failure — absent file, empty or malformed read, failing aggregation —
so the weather source can only be skipped, never abort the run. -/
def weatherStep (g : DF) : SourceInput → DF
  | .ok w =>
    match aggWeather w with
    | some ws => mergeLeft g (weatherRename ws)
    | none => g
  | _ => g

/-- The crop block of `create_dashboard` (lines 45-53): group to one row
per `field_id` keeping first non-null values, tag columns `Crop_`,
left-join.  Its `except Exception` also catches every failure, so the
crop source can only be skipped. -/
def cropStep (g : DF) : SourceInput → DF
  | .ok c => mergeLeft g (tagCols "Crop_" (groupFirst c))
  | _ => g

/-- The merge phase of `create_dashboard` (`visualize_dashboard.py` lines
17-53): the base field table is left-joined, in order, with the grouped
soil table, the aggregated weather table and the grouped crop table.
Skipped sources contribute nothing; a soil failure other than
`EmptyDataError` is uncaught, aborting the run with no output (`none`). -/
def create_dashboard (gdf : DF) (soil weather crop : SourceInput) : Option DF :=
  (soilStep gdf soil).map (fun g1 => cropStep (weatherStep g1 weather) crop)

/-- The column group the soil source contributes to the dashboard output:
its grouped columns tagged `Soil_` when the file was read and processed,
nothing when it was skipped. -/
def soilContrib : SourceInput → List String
  | .ok s => (tagCols "Soil_" (groupFirst s)).cols
  | _ => []

/-- The column group the weather source contributes: the two renamed
aggregate columns when the file was read and the aggregation succeeded,
nothing otherwise. -/
def weatherContrib : SourceInput → List String
  | .ok w =>
    match aggWeather w with
    | some ws => (weatherRename ws).cols
    | none => []
  | _ => []

/-- The column group the crop source contributes: its grouped columns
tagged `Crop_` when the file was read, nothing otherwise. -/
def cropContrib : SourceInput → List String
  | .ok c => (tagCols "Crop_" (groupFirst c)).cols
  | _ => []

/-- An ordering on cells used where pandas sorts column values (the `year`
values in `pivot`): missing first, then strings lexicographically, then
numbers by value (int64 and float64 compare numerically). -/
def cellLe : Cell → Cell → Bool
  | .null, _ => true
  | _, .null => false
  | .str a, .str b => a ≤ b
  | .str _, _ => true
  | _, .str _ => false
  | .int a, .int b => a ≤ b
  | .int a, .num b => (a : ℚ) ≤ b
  | .num a, .int b => a ≤ (b : ℚ)
  | .num a, .num b => a ≤ b

/-- The text of a cell as it appears in a pandas column label, used for the
`crop_{col}` column names built from the `year` values in
`a2_merge_data.py` line 20 (the years are read as int64). -/
def cellText : Cell → String
  | .null => "nan"
  | .str s => s
  | .int i => toString i
  | .num q => toString q

/-- Embeds `crop_df.pivot(index='field_id', columns='year', values='crop_name')`
followed by the `crop_{year}` rename and `reset_index`
(`a2_merge_data.py` lines 18-22).  pandas raises KeyError when a named
column is missing and ValueError when some `(field_id, year)` pair is
duplicated; `main` catches neither, so both abort the run. -/
def pivotCrops (df : DF) : Except String DF :=
  match df.cols.findIdx? (· == "year"), df.cols.findIdx? (· == "crop_name") with
  | some iy, some ic =>
    let pairs := df.rows.map (fun p => (p.1, p.2.getD iy Cell.null))
    if pairs.Nodup then
      let years := sortLe cellLe (dedupFirst (df.rows.map (fun p => p.2.getD iy Cell.null)))
      .ok { cols := years.map (fun y => "crop_" ++ cellText y)
            rows := (sortedKeys df).map (fun k =>
              (k, years.map (fun y =>
                match df.rows.filter (fun p => p.1 == k && p.2.getD iy Cell.null == y) with
                | [] => Cell.null
                | p :: _ => p.2.getD ic Cell.null))) }
    else .error "ValueError: Index contains duplicate entries, cannot reshape"
  | _, _ => .error "KeyError"

/-- The merge performed by `a2_merge_data.py` `main` (lines 18-25): pivot
the crop table to one row per `field_id` with one `crop_{year}` column per
year, then left-join it onto the field table on `field_id`.  `main` has no
duplicate-key check of its own: whatever `merge` produces is written out. -/
def a2_merge_main (gdf : DF) (crop_df : DF) : Except String DF :=
  (pivotCrops crop_df).map (fun cp => mergeLeft gdf cp)

/-- A geospatial table as `BoundaryClient.standardize_schema` sees it:
named columns (here `field_id` is an ordinary column, as in the client),
rows of cells aligned with the columns, and a coordinate reference string. -/
structure GDF where
  cols : List String
  rows : List (List Cell)
  crs : String
deriving DecidableEq

/-- The `required_columns` dict of `BoundaryClient.standardize_schema`
(`client.py` lines 70-79): column names in order, each with a declared
dtype string.  Note there is no default-value component. -/
def required_columns : List (String × String) :=
  [("field_id", "object"), ("crop_2023", "object"), ("acres", "float64"),
   ("yield_2023", "int64"), ("owner", "object"), ("planting_date", "object"),
   ("soil_type", "object"), ("geometry", "geometry")]

/-- The schema's column names, in declared order. -/
def requiredCols : List String := required_columns.map Prod.fst

/-- The value of column `c` in a row `r` aligned with columns `cols`
(pandas label-based column selection); missing column reads as null. -/
def colVal : List String → List Cell → String → Cell
  | [], _, _ => .null
  | col :: cols, r, c => if col == c then r.headD .null else colVal cols r.tail c

/-- Embeds `BoundaryClient.standardize_schema` (`client.py` lines 68-93): every
schema column absent from the input is added with value `None` for all
rows; the columns are then selected in schema order; finally, if the CRS is
not `EPSG:4326` the geometry column (schema position 7) is reprojected via
`to_crs`, modelled by the abstract per-cell transform `reproj` applied at
the current CRS — except that a missing geometry stays missing, as
`to_crs` preserves `None` geometries.  The declared dtypes of
`required_columns` are never applied — no `astype`, no value coercion,
and missing values in columns present in the input are left untouched. -/
def standardize_schema (reproj : String → Cell → Cell) (gdf : GDF) : GDF :=
  let missing := requiredCols.filter (fun c => !(gdf.cols.contains c))
  let cols1 := gdf.cols ++ missing
  let rows1 := gdf.rows.map (fun r => r ++ missing.map (fun _ => Cell.null))
  let rows2 := rows1.map (fun r => requiredCols.map (fun c => colVal cols1 r c))
  if gdf.crs == "EPSG:4326" then
    { cols := requiredCols, rows := rows2, crs := gdf.crs }
  else
    { cols := requiredCols
      rows := rows2.map (fun r => r.set 7
        (match r.getD 7 Cell.null with
         | Cell.null => Cell.null
         | g => reproj gdf.crs g))
      crs := "EPSG:4326" }

/-- One row as returned by the Source Cooperative GeoParquet query in
`FieldBoundaryDownloader._query_source_cooperative`: the selected `id`,
crop columns, and the EPSG:5070 geometry represented by its area in square
meters (the only geometry attribute the subsequent code computes with;
real number arithmetic is modelled exactly over ℚ). -/
structure RawField where
  field_id : String
  crop_code : String
  crop_name : String
  crop_code_list : String
  geomArea : ℚ
deriving DecidableEq

/-- One field record of the GeoDataFrame `_query_source_cooperative`
returns (`_downloader.py` lines 200-211), geometry aside. -/
structure FieldRec where
  field_id : String
  region : String
  state_fips : String
  area_acres : ℚ
  crop_code : String
  crop_name : String
  crop_code_list : String
deriving DecidableEq

/-- The dict `FieldBoundaryDownloader.REGION_STATE_FIPS` (`_downloader.py` lines
41-45). -/
def REGION_STATE_FIPS : List (String × List String) :=
  [("corn_belt", ["17", "19", "18", "39", "27"]),
   ("great_plains", ["20", "31", "46", "38", "48"]),
   ("southeast", ["05", "28", "22", "13"])]

/-- The dict `FieldBoundaryDownloader.CROP_TYPES` (`_downloader.py` lines 47-52). -/
def CROP_TYPES : List (String × List String) :=
  [("corn", ["1"]), ("soybeans", ["5"]),
   ("wheat", ["23", "24", "25", "26", "27"]), ("cotton", ["2"])]

/-- The valid region names: the keys of `REGION_STATE_FIPS`. -/
def validRegions : List String := REGION_STATE_FIPS.map Prod.fst

/-- The valid crop names: the keys of `CROP_TYPES`. -/
def validCrops : List String := CROP_TYPES.map Prod.fst

/-- The `state_to_region` mapping built in `_query_source_cooperative`
(lines 194-198), with the `fillna(regions[0])` fallback. -/
def stateToRegion (fips : String) (fallback : String) : String :=
  match REGION_STATE_FIPS.find? (fun p => p.2.contains fips) with
  | some p => p.1
  | none => fallback

/-- Errors raised by `FieldBoundaryDownloader`: Python `ValueError` and
`RuntimeError` with their messages. -/
inductive DlError where
  | valueError (msg : String)
  | runtimeError (msg : String)
deriving DecidableEq

/-- The constant 4046.86, the square-meters-per-acre divisor of `_downloader.py` line
181, as an exact rational. -/
def acreDivisor : ℚ := 404686 / 100

/-- Embeds `FieldBoundaryDownloader._query_source_cooperative` (lines 126-215)
after the DuckDB query: `queryRows` stands for the rows the query returned
(server-side region/crop filtering, random order and the `LIMIT` belong to
the external database).  An empty result raises; otherwise
`area_acres = geometry.area / 4046.86` is computed per row, rows with
non-positive area are dropped, the result is truncated to `count` rows, and
each remaining row is given its region (state FIPS prefix of `field_id`,
falling back to `regions[0]`). -/
def querySourceCooperative (count : Nat) (fallbackRegion : String)
    (queryRows : List RawField) : Except String (List FieldRec) :=
  if queryRows.isEmpty then
    .error "No fields found matching criteria. Try different regions/crops."
  else
    let withArea := queryRows.map (fun r => (r, r.geomArea / acreDivisor))
    let pos := withArea.filter (fun p => decide ((0 : ℚ) < p.2))
    let limited := pos.take count
    .ok (limited.map (fun p =>
      { field_id := p.1.field_id
        region := stateToRegion (p.1.field_id.take 2) fallbackRegion
        state_fips := p.1.field_id.take 2
        area_acres := p.2
        crop_code := p.1.crop_code
        crop_name := p.1.crop_name
        crop_code_list := p.1.crop_code_list }))

/-- The input validation at the top of `FieldBoundaryDownloader.download`
(`_downloader.py` lines 97-114): `count` must be at least 1; `regions` and
`crops` default when `None` or empty (Python `regions or [...]`); any name
outside the registered keys raises `ValueError`.  Returns the effective
region and crop lists. -/
def downloadChecks (count : Int) (oregions ocrops : Option (List String)) :
    Except DlError (List String × List String) :=
  if count < 1 then .error (.valueError "count must be at least 1")
  else
    let regions := match oregions with
      | none => ["corn_belt"]
      | some l => if l.isEmpty then ["corn_belt"] else l
    let crops := match ocrops with
      | none => ["corn", "soybeans"]
      | some l => if l.isEmpty then ["corn", "soybeans"] else l
    if !(regions.filter (fun r => !(validRegions.contains r))).isEmpty then
      .error (.valueError "Invalid regions")
    else if !(crops.filter (fun c => !(validCrops.contains c))).isEmpty then
      .error (.valueError "Invalid crops")
    else .ok (regions, crops)

/-- Embeds `FieldBoundaryDownloader._validate` (lines 217-228): a non-empty
result (the required columns and the CRS are structural in this model). -/
def validateFields (fields : List FieldRec) : Bool := !fields.isEmpty

/-- Embeds `FieldBoundaryDownloader.download` (lines 77-124): validate the
arguments, query Source Cooperative (any query failure is re-raised as
`RuntimeError`), validate the result.  Saving the file is I/O outside this
model. -/
def download (count : Int) (oregions ocrops : Option (List String))
    (queryRows : List RawField) : Except DlError (List FieldRec) := do
  let (regions, _crops) ← downloadChecks count oregions ocrops
  match querySourceCooperative count.toNat (regions.headD "corn_belt") queryRows with
  | .error e => .error (.runtimeError ("Data download failed: " ++ e))
  | .ok fields =>
    if !(validateFields fields) then
      .error (.runtimeError "Downloaded field data failed validation")
    else .ok fields

/-- Whether an outcome is a raised Python `ValueError`. -/
def isValErr {α : Type} : Except DlError α → Bool
  | .error (.valueError _) => true
  | _ => false

/-- The condition claim C10 describes: `count < 1`, or the provided
regions list contains a name outside the registered regions, or the
provided crops list contains a name outside the registered crops. -/
def invalidDownloadArgs (count : Int) (oregions ocrops : Option (List String)) : Bool :=
  decide (count < 1)
    || (oregions.getD []).any (fun r => !(validRegions.contains r))
    || (ocrops.getD []).any (fun c => !(validCrops.contains c))

/-- Modelled from the spec: the per-source orphan count of the
`JoinReport` (spec §4.4 step 4 — "attribute records with no corresponding
base field (orphans)").  No `JoinReport` exists anywhere under `src/`; the
scripts (`a2_merge_data.py` line 25, `visualize_dashboard.py` line 41)
only call the plain left merge embedded as `mergeLeft`. -/
def orphanCountSpec (base attr : DF) : Nat :=
  (attr.rows.filter (fun p => !(base.keys.contains p.1))).length

/-- Modelled from the spec: the matched-record count of the `JoinReport`
(spec §4.4 step 4), counting the attribute records whose `field_id` occurs
in the base table; absent from `src/` like the rest of the `JoinReport`. -/
def matchedRecordCount (base attr : DF) : Nat :=
  (attr.rows.filter (fun p => base.keys.contains p.1)).length

/-- A one-column base field table used to evaluate the dashboard merge on
a concrete input. -/
def dfC1base : DF := ⟨["fname"], [("F1", [Cell.str "Alpha"])]⟩

/-- A base field table with a duplicated `field_id` (violating the spec §3
invariant), used to evaluate `a2_merge_main` on it. -/
def dfC2base : DF :=
  ⟨["name"], [("F1", [Cell.str "a"]), ("F1", [Cell.str "b"])]⟩

/-- A well-formed crop table for the duplicate-base evaluation. -/
def dfC2crop : DF :=
  ⟨["year", "crop_name"], [("F1", [Cell.int 2023, Cell.str "Corn"])]⟩

/-- A one-column base table used to evaluate the dashboard merge when the
soil source fails. -/
def dfC3base : DF := ⟨["owner"], [("F2", [Cell.str "Beta"])]⟩

/-- A soil table with two records for the same `field_id` where the first
record has a missing value: pandas `groupby().first()` then combines the
two records column-wise instead of keeping the first row. -/
def dfC4soil : DF :=
  ⟨["soil_name", "ph"],
   [("F1", [Cell.null, Cell.str "6.5"]), ("F1", [Cell.str "Loam", Cell.str "7.0"])]⟩

/-- A soil table with two complete records for the same `field_id`: here
the first record is kept in full. -/
def dfC4w : DF :=
  ⟨["soil_name"], [("F1", [Cell.str "Loam"]), ("F1", [Cell.str "Clay"])]⟩

/-- A base table for the orphan-record evaluation. -/
def dfC5base : DF := ⟨["g"], [("F1", [Cell.str "x"]), ("F2", [Cell.str "y"])]⟩

/-- An attribute table containing an orphan record: `field_id` `F4` occurs
in no base row. -/
def dfC5attr : DF :=
  ⟨["w"], [("F1", [Cell.str "wet"]), ("F4", [Cell.str "dry"])]⟩

/-- An input table whose `acres` column (declared `float64` in the schema)
contains a missing value, and which lacks the other schema columns. -/
def gdfC6 : GDF :=
  ⟨["field_id", "acres"], [[Cell.str "F1", Cell.null]], "EPSG:4326"⟩

/-- A schema-exceeding input: an extra column and an absent schema column,
for exercising the amended standardizer statement. -/
def gdfC6w : GDF :=
  ⟨["acres", "extra"], [[Cell.num 40, Cell.str "junk"]], "EPSG:4326"⟩

/-- An input whose `acres` column holds a non-numeric string: the schema
declares `acres` as `float64`, so coercion would have to fail. -/
def gdfC7 : GDF :=
  ⟨["field_id", "acres"], [[Cell.str "F1", Cell.str "forty"]], "EPSG:4326"⟩

/-- A raw Source Cooperative row with a positive-area geometry
(809372/100 m² ≈ 2 acres). -/
def rawC9 : RawField :=
  { field_id := "17001", crop_code := "1", crop_name := "Corn",
    crop_code_list := "1", geomArea := 809372 / 100 }

/-- The field record `_query_source_cooperative` derives from `rawC9`. -/
def recC9 : FieldRec :=
  { field_id := "17001", region := "corn_belt", state_fips := "17",
    area_acres := 809372 / 100 / acreDivisor, crop_code := "1",
    crop_name := "Corn", crop_code_list := "1" }

/-- A raw row used to show that a failed validation never reaches the
query. -/
def rawC10 : RawField :=
  { field_id := "19002", crop_code := "5", crop_name := "Soybeans",
    crop_code_list := "5", geomArea := 1 }

/-! Helper lemmas about the list operations underlying the embedding. -/

theorem mem_dedupFirstAux [BEq α] [LawfulBEq α] {x : α} :
    ∀ {l seen : List α}, x ∈ dedupFirstAux l seen ↔ x ∈ l ∧ x ∉ seen := by
  intro l
  induction l with
  | nil => intro seen; simp [dedupFirstAux]
  | cons k rest ih =>
    intro seen
    by_cases hkm : k ∈ seen
    · have hc : seen.contains k = true := by simpa using hkm
      simp only [dedupFirstAux, hc, if_true, ih, List.mem_cons]
      by_cases hxk : x = k <;> simp_all
    · have hc : seen.contains k = false := by simpa using hkm
      simp only [dedupFirstAux, hc, Bool.false_eq_true, if_false, List.mem_cons, ih]
      by_cases hxk : x = k <;> simp_all

theorem nodup_dedupFirstAux [BEq α] [LawfulBEq α] :
    ∀ (l seen : List α), (dedupFirstAux l seen).Nodup := by
  intro l
  induction l with
  | nil => intro seen; simp [dedupFirstAux]
  | cons k rest ih =>
    intro seen
    by_cases hkm : k ∈ seen
    · have hc : seen.contains k = true := by simpa using hkm
      simpa only [dedupFirstAux, hc, if_true] using ih seen
    · have hc : seen.contains k = false := by simpa using hkm
      simp only [dedupFirstAux, hc, Bool.false_eq_true, if_false, List.nodup_cons]
      refine ⟨?_, ih _⟩
      intro hkmem
      exact (mem_dedupFirstAux.mp hkmem).2 (List.mem_cons_self _ _)

theorem mem_dedupFirst [BEq α] [LawfulBEq α] {x : α} {l : List α} :
    x ∈ dedupFirst l ↔ x ∈ l := by
  simp [dedupFirst, mem_dedupFirstAux]

theorem nodup_dedupFirst [BEq α] [LawfulBEq α] (l : List α) :
    (dedupFirst l).Nodup := nodup_dedupFirstAux l []

theorem perm_insertLe (le : α → α → Bool) (x : α) :
    ∀ l : List α, (insertLe le x l).Perm (x :: l) := by
  intro l
  induction l with
  | nil => simp [insertLe]
  | cons y ys ih =>
    by_cases h : le x y = true
    · simp [insertLe, h]
    · simp only [insertLe, h, if_false]
      exact (ih.cons y).trans (List.Perm.swap x y ys)

theorem perm_sortLe (le : α → α → Bool) :
    ∀ l : List α, (sortLe le l).Perm l := by
  intro l
  induction l with
  | nil => simp [sortLe]
  | cons x xs ih =>
    exact (perm_insertLe le x (sortLe le xs)).trans (ih.cons x)

theorem mem_sortLe {le : α → α → Bool} {x : α} {l : List α} :
    x ∈ sortLe le l ↔ x ∈ l := (perm_sortLe le l).mem_iff

theorem nodup_sortLe {le : α → α → Bool} {l : List α} (h : l.Nodup) :
    (sortLe le l).Nodup := (perm_sortLe le l).symm.nodup h

theorem mem_sortedKeys {df : DF} {k : String} :
    k ∈ sortedKeys df ↔ k ∈ df.keys := by
  simp [sortedKeys, mem_sortLe, mem_dedupFirst]

theorem nodup_sortedKeys (df : DF) : (sortedKeys df).Nodup :=
  nodup_sortLe (nodup_dedupFirst _)

theorem length_filter_partition (p : α → Bool) :
    ∀ l : List α,
      (l.filter p).length + (l.filter (fun a => !(p a))).length = l.length := by
  intro l
  induction l with
  | nil => rfl
  | cons a t ih =>
    cases h : p a <;> simp [List.filter_cons, h] <;> omega

theorem isEmpty_filter_eq (p : α → Bool) :
    ∀ l : List α, (l.filter p).isEmpty = !(l.any p) := by
  intro l
  induction l with
  | nil => rfl
  | cons a t ih =>
    by_cases h : p a = true <;> simp [List.filter_cons, h, ih]

theorem filter_key_len_le_one {k : String} :
    ∀ rows : List (String × List Cell), (rows.map Prod.fst).Nodup →
      (rows.filter (fun q => q.1 == k)).length ≤ 1 := by
  intro rows
  induction rows with
  | nil => intro _; simp
  | cons p t ih =>
    intro hn
    rw [List.map_cons, List.nodup_cons] at hn
    by_cases hpk : p.1 = k
    · have hb : (p.1 == k) = true := by simpa using hpk
      have hrest : t.filter (fun q => q.1 == k) = [] := by
        rw [List.filter_eq_nil_iff]
        intro q hq hqk
        have : q.1 = k := by simpa using hqk
        exact hn.1 (by simpa [← this, hpk] using List.mem_map_of_mem Prod.fst hq)
      simp [List.filter_cons, hb, hrest]
    · have hb : (p.1 == k) = false := by simpa using hpk
      simpa [List.filter_cons, hb] using ih hn.2

theorem keys_flatMap_of_single {β : Type}
    (f : (String × β) → List (String × β)) (rows : List (String × β))
    (hf : ∀ p ∈ rows, (f p).map Prod.fst = [p.1]) :
    (rows.flatMap f).map Prod.fst = rows.map Prod.fst := by
  induction rows with
  | nil => rfl
  | cons p t ih =>
    rw [List.flatMap_cons, List.map_append, hf p (List.mem_cons_self _ _),
      ih (fun q hq => hf q (List.mem_cons_of_mem _ hq))]
    rfl

theorem keys_mergeLeft {l r : DF} (h : r.keys.Nodup) :
    (mergeLeft l r).keys = l.keys := by
  unfold mergeLeft DF.keys
  refine keys_flatMap_of_single _ _ ?_
  intro p _
  rcases hfil : r.rows.filter (fun q => q.1 == p.1) with _ | ⟨q, qs⟩
  · simp [hfil]
  · have hlen : (r.rows.filter (fun q => q.1 == p.1)).length ≤ 1 :=
      filter_key_len_le_one r.rows h
    rw [hfil] at hlen
    have hqs : qs = [] := by
      rw [← List.length_eq_zero]
      simpa using hlen
    subst hqs
    simp [hfil]

theorem rows_length_mergeLeft {l r : DF} (h : r.keys.Nodup) :
    (mergeLeft l r).rows.length = l.rows.length := by
  have := congrArg List.length (keys_mergeLeft (l := l) h)
  simpa [DF.keys] using this

theorem mem_keys_mergeLeft {l r : DF} {k : String} :
    k ∈ (mergeLeft l r).keys → k ∈ l.keys := by
  unfold mergeLeft DF.keys
  intro hk
  simp only [List.mem_map, List.mem_flatMap] at hk
  obtain ⟨row, ⟨p, hp, hrow⟩, hfst⟩ := hk
  have hfst' : row.1 = p.1 := by
    rcases hfil : r.rows.filter (fun q => q.1 == p.1) with _ | ⟨q, qs⟩ <;>
      rw [hfil] at hrow
    · simp only [List.mem_singleton] at hrow
      rw [hrow]
    · simp only [List.mem_map] at hrow
      obtain ⟨q', _, hq'⟩ := hrow
      simp [← hq']
  exact hfst ▸ hfst' ▸ List.mem_map_of_mem Prod.fst hp

theorem map_fst_pairing {β : Type} (g : String → β) (l : List String) :
    l.map (Prod.fst ∘ fun k => (k, g k)) = l := by
  induction l with
  | nil => rfl
  | cons a t ih => simp only [List.map_cons, ih]; rfl

theorem keys_groupFirst (df : DF) : (groupFirst df).keys = sortedKeys df := by
  unfold groupFirst DF.keys
  rw [List.map_map]
  exact map_fst_pairing _ _

theorem nodup_keys_groupFirst (df : DF) : (groupFirst df).keys.Nodup := by
  rw [keys_groupFirst]; exact nodup_sortedKeys df

theorem keys_tagCols (tag : String) (df : DF) : (tagCols tag df).keys = df.keys := rfl

theorem keys_weatherRename (df : DF) : (weatherRename df).keys = df.keys := rfl

theorem keys_aggWeather {w ws : DF} (h : aggWeather w = some ws) :
    ws.keys = sortedKeys w := by
  unfold aggWeather at h
  rcases h1 : w.cols.findIdx? (· == "T2M") with _ | it
  · rw [h1] at h; exact absurd h (by simp)
  rcases h2 : w.cols.findIdx? (· == "PRECTOTCORR") with _ | ip
  · rw [h1, h2] at h; exact absurd h (by simp)
  rw [h1, h2] at h
  simp only at h
  split at h
  · exact absurd h (by simp)
  · split at h
    · cases h
      unfold DF.keys
      simp only [List.map_map]
      exact map_fst_pairing _ _
    · exact absurd h (by simp)

theorem keys_pivotCrops {df cp : DF} (h : pivotCrops df = .ok cp) :
    cp.keys = sortedKeys df := by
  unfold pivotCrops at h
  rcases h1 : df.cols.findIdx? (· == "year") with _ | iy
  · rw [h1] at h; exact absurd h (by simp)
  rcases h2 : df.cols.findIdx? (· == "crop_name") with _ | ic
  · rw [h1, h2] at h; exact absurd h (by simp)
  rw [h1, h2] at h
  simp only at h
  split at h
  · cases h
    unfold DF.keys
    simp only [List.map_map]
    exact map_fst_pairing _ _
  · exact absurd h (by simp)

theorem soilStep_some_keys {g out : DF} {s : SourceInput}
    (h : soilStep g s = some out) : out.keys = g.keys := by
  cases s with
  | ok sdf =>
    have h' : some (mergeLeft g (tagCols "Soil_" (groupFirst sdf))) = some out := h
    rw [Option.some_inj] at h'
    subst h'
    exact keys_mergeLeft
      (by rw [keys_tagCols, keys_groupFirst]; exact nodup_sortedKeys sdf)
  | absent =>
    have h' : some g = some out := h
    rw [Option.some_inj] at h'
    subst h'
    rfl
  | emptyData =>
    have h' : some g = some out := h
    rw [Option.some_inj] at h'
    subst h'
    rfl
  | raised => exact absurd h (by simp [soilStep])

theorem soilStep_some_cols {g out : DF} {s : SourceInput}
    (h : soilStep g s = some out) : out.cols = g.cols ++ soilContrib s := by
  cases s with
  | ok sdf =>
    have h' : some (mergeLeft g (tagCols "Soil_" (groupFirst sdf))) = some out := h
    rw [Option.some_inj] at h'
    subst h'
    rfl
  | absent =>
    have h' : some g = some out := h
    rw [Option.some_inj] at h'
    subst h'
    simp [soilContrib]
  | emptyData =>
    have h' : some g = some out := h
    rw [Option.some_inj] at h'
    subst h'
    simp [soilContrib]
  | raised => exact absurd h (by simp [soilStep])

theorem keys_weatherStep (g : DF) (w : SourceInput) :
    (weatherStep g w).keys = g.keys := by
  cases w with
  | ok wdf =>
    show (match aggWeather wdf with
      | some ws => mergeLeft g (weatherRename ws)
      | none => g).keys = g.keys
    rcases haw : aggWeather wdf with _ | ws
    · rfl
    · exact keys_mergeLeft
        (by rw [keys_weatherRename, keys_aggWeather haw]; exact nodup_sortedKeys wdf)
  | absent => rfl
  | emptyData => rfl
  | raised => rfl

theorem keys_cropStep (g : DF) (c : SourceInput) : (cropStep g c).keys = g.keys := by
  cases c with
  | ok cdf =>
    exact keys_mergeLeft
      (by rw [keys_tagCols, keys_groupFirst]; exact nodup_sortedKeys cdf)
  | absent => rfl
  | emptyData => rfl
  | raised => rfl

theorem cols_weatherStep (g : DF) (w : SourceInput) :
    (weatherStep g w).cols = g.cols ++ weatherContrib w := by
  cases w with
  | ok wdf =>
    show (match aggWeather wdf with
      | some ws => mergeLeft g (weatherRename ws)
      | none => g).cols = g.cols ++ weatherContrib (.ok wdf)
    have : weatherContrib (.ok wdf) = (match aggWeather wdf with
      | some ws => (weatherRename ws).cols
      | none => []) := rfl
    rw [this]
    rcases haw : aggWeather wdf with _ | ws
    · simp
    · rfl
  | absent => simp [weatherStep, weatherContrib]
  | emptyData => simp [weatherStep, weatherContrib]
  | raised => simp [weatherStep, weatherContrib]

theorem cols_cropStep (g : DF) (c : SourceInput) :
    (cropStep g c).cols = g.cols ++ cropContrib c := by
  cases c with
  | ok cdf => rfl
  | absent => simp [cropStep, cropContrib]
  | emptyData => simp [cropStep, cropContrib]
  | raised => simp [cropStep, cropContrib]

theorem cd_eq_of_soil {g g1 : DF} {s : SourceInput} (h : soilStep g s = some g1)
    (w c : SourceInput) :
    create_dashboard g s w c = some (cropStep (weatherStep g1 w) c) := by
  unfold create_dashboard
  rw [h]
  rfl

theorem cd_some_keys {gdf out : DF} {s w c : SourceInput}
    (h : create_dashboard gdf s w c = some out) : out.keys = gdf.keys := by
  rcases hs : soilStep gdf s with _ | g1
  · unfold create_dashboard at h
    rw [hs] at h
    simp at h
  · rw [cd_eq_of_soil hs w c, Option.some_inj] at h
    subst h
    rw [keys_cropStep, keys_weatherStep]
    exact soilStep_some_keys hs

theorem cd_some_cols {gdf out : DF} {s w c : SourceInput}
    (h : create_dashboard gdf s w c = some out) :
    out.cols = ((gdf.cols ++ soilContrib s) ++ weatherContrib w) ++ cropContrib c := by
  rcases hs : soilStep gdf s with _ | g1
  · unfold create_dashboard at h
    rw [hs] at h
    simp at h
  · rw [cd_eq_of_soil hs w c, Option.some_inj] at h
    subst h
    rw [cols_cropStep, cols_weatherStep, soilStep_some_cols hs]

theorem cd_some_rows_length {gdf out : DF} {s w c : SourceInput}
    (h : create_dashboard gdf s w c = some out) :
    out.rows.length = gdf.rows.length := by
  have hk := congrArg List.length (cd_some_keys h)
  simpa [DF.keys] using hk

theorem cd_completes (gdf : DF) (s w c : SourceInput) (h : s ≠ .raised) :
    ∃ out, create_dashboard gdf s w c = some out := by
  cases s with
  | raised => exact absurd rfl h
  | absent =>
    exact ⟨_, cd_eq_of_soil (show soilStep gdf .absent = some gdf from rfl) w c⟩
  | emptyData =>
    exact ⟨_, cd_eq_of_soil (show soilStep gdf .emptyData = some gdf from rfl) w c⟩
  | ok sdf =>
    exact ⟨_, cd_eq_of_soil (show soilStep gdf (.ok sdf)
      = some (mergeLeft gdf (tagCols "Soil_" (groupFirst sdf))) from rfl) w c⟩

/-! Claim theorems. -/

/-- C1 (counterexample): with a one-row, one-column base table and a soil
file that exists but whose read raises `EmptyDataError` (the `except`
branch of `visualize_dashboard.py` line 30), the dashboard output is the
base table itself — the column count did not grow by one group for the
attempted soil source, contradicting the claim that the column set grows
by one group per attempted source regardless of success. -/
theorem c1_counterexample :
    create_dashboard dfC1base .emptyData .absent .absent = some dfC1base
  ∧ ¬ ∃ out, create_dashboard dfC1base .emptyData .absent .absent = some out
        ∧ out.cols.length = dfC1base.cols.length + 1 := by
  refine ⟨rfl, ?_⟩
  rintro ⟨out, hout, hlen⟩
  rw [show create_dashboard dfC1base .emptyData .absent .absent = some dfC1base
      from rfl, Option.some_inj] at hout
  subst hout
  exact absurd hlen (by decide)

/-- C1 (amended): whenever the soil source does not raise an uncaught
exception, the dashboard merge completes and its output has exactly as
many rows as the base table, with a column set equal to the base columns
followed by one column group per successfully read-and-processed source —
a skipped source (absent, caught failure, failed aggregation) contributes
no columns; a soil failure other than `EmptyDataError` is uncaught and
aborts the run with no output at all. -/
theorem c1_dashboard_shape (gdf : DF) (s w c : SourceInput) :
    (s ≠ .raised → ∃ out, create_dashboard gdf s w c = some out
        ∧ out.rows.length = gdf.rows.length
        ∧ out.cols = ((gdf.cols ++ soilContrib s) ++ weatherContrib w)
            ++ cropContrib c)
  ∧ create_dashboard gdf .raised w c = none := by
  refine ⟨?_, rfl⟩
  intro hs
  obtain ⟨out, hout⟩ := cd_completes gdf s w c hs
  exact ⟨out, hout, cd_some_rows_length hout, cd_some_cols hout⟩

/-- C1 (witness): the amended statement at a concrete base table with the
soil read raising the caught `EmptyDataError`. -/
theorem c1_witness :
    ∃ out, create_dashboard dfC1base .emptyData .absent .absent = some out
      ∧ out.rows.length = dfC1base.rows.length
      ∧ out.cols = ((dfC1base.cols ++ soilContrib .emptyData)
          ++ weatherContrib .absent) ++ cropContrib .absent :=
  (c1_dashboard_shape dfC1base .emptyData .absent .absent).1 (by decide)

/-- C3 (counterexample): a soil source raising the caught
`EmptyDataError` is skipped entirely by `create_dashboard` — the run's
output equals the base table, so it contains no soil column group filled
with defaults and no join report of any kind, contradicting the claim;
and a soil failure the block does not catch aborts the run instead of
reaching DONE. -/
theorem c3_counterexample :
    create_dashboard dfC3base .emptyData .absent .absent = some dfC3base
  ∧ dfC3base.cols = ["owner"]
  ∧ create_dashboard dfC3base .raised .absent .absent = none :=
  ⟨rfl, rfl, rfl⟩

/-- C3 (amended): a failing source whose exception the code catches (for
soil only `EmptyDataError`; for weather and crops any exception) is
skipped: the run still completes with an output identical to that of a run
in which the source was absent — no default-filled columns, and no
`JoinReport` is computed — carrying one row per base field; a soil
failure other than `EmptyDataError` is uncaught and aborts the run with no
output. -/
theorem c3_failed_source_skipped (gdf : DF) (s w c : SourceInput) :
    create_dashboard gdf .emptyData w c = create_dashboard gdf .absent w c
  ∧ create_dashboard gdf s .emptyData c = create_dashboard gdf s .absent c
  ∧ create_dashboard gdf s .raised c = create_dashboard gdf s .absent c
  ∧ create_dashboard gdf s w .emptyData = create_dashboard gdf s w .absent
  ∧ create_dashboard gdf s w .raised = create_dashboard gdf s w .absent
  ∧ create_dashboard gdf .raised w c = none
  ∧ ∀ out, create_dashboard gdf .emptyData w c = some out →
      out.rows.length = gdf.rows.length := by
  refine ⟨rfl, rfl, rfl, rfl, rfl, rfl, ?_⟩
  intro out hout
  exact cd_some_rows_length hout

/-- C3 (witness): the amended statement's completion and row-count clause
at a concrete base table whose soil read raises `EmptyDataError`. -/
theorem c3_witness :
    create_dashboard dfC3base .emptyData .absent .absent = some dfC3base
  ∧ dfC3base.rows.length = dfC3base.rows.length :=
  ⟨rfl,
   (c3_failed_source_skipped dfC3base .absent .absent .absent).2.2.2.2.2.2
     dfC3base rfl⟩

theorem a2_merge_ok {gdf crop out : DF} (h : a2_merge_main gdf crop = .ok out) :
    ∃ cp, pivotCrops crop = .ok cp ∧ out = mergeLeft gdf cp := by
  unfold a2_merge_main at h
  rcases hp : pivotCrops crop with e | cp <;> rw [hp] at h
  · exact absurd h (by simp [Except.map])
  · refine ⟨cp, rfl, ?_⟩
    simpa [Except.map] using h.symm

/-- C2 (counterexample): a base table with a duplicated `field_id` is
left-joined by `a2_merge_data.py` without any duplicate check: the merge
succeeds and produces an output (the claim says it fails with
`DuplicateFieldId` before producing any output), and that output carries
the duplicated key `F1` twice. -/
theorem c2_counterexample :
    ¬ dfC2base.keys.Nodup
  ∧ a2_merge_main dfC2base dfC2crop
      = .ok ⟨["name", "crop_2023"],
             [("F1", [Cell.str "a", Cell.str "Corn"]),
              ("F1", [Cell.str "b", Cell.str "Corn"])]⟩ :=
  ⟨by decide, by rfl⟩

/-- C2 (amended): `a2_merge_data.py` performs no duplicate-`field_id`
check on the base table; whenever the pivot succeeds the left join
succeeds silently, producing exactly one output row per base row — base
rows with duplicate keys included, their keys preserved in order — and no
`DuplicateFieldId` error exists in the code. -/
theorem c2_merge_no_duplicate_check (gdf crop out : DF)
    (h : a2_merge_main gdf crop = .ok out) :
    out.keys = gdf.keys ∧ out.rows.length = gdf.rows.length := by
  obtain ⟨cp, hp, rfl⟩ := a2_merge_ok h
  have hnd : cp.keys.Nodup := by
    rw [keys_pivotCrops hp]; exact nodup_sortedKeys crop
  exact ⟨keys_mergeLeft hnd, rows_length_mergeLeft hnd⟩

/-- C2 (witness): the amended statement applied to the concrete
duplicate-key base table. -/
theorem c2_witness :
    (⟨["name", "crop_2023"],
      [("F1", [Cell.str "a", Cell.str "Corn"]),
       ("F1", [Cell.str "b", Cell.str "Corn"])]⟩ : DF).keys = dfC2base.keys
  ∧ (⟨["name", "crop_2023"],
      [("F1", [Cell.str "a", Cell.str "Corn"]),
       ("F1", [Cell.str "b", Cell.str "Corn"])]⟩ : DF).rows.length
      = dfC2base.rows.length :=
  c2_merge_no_duplicate_check dfC2base dfC2crop _ (by rfl)

theorem firstNonNull_cons_of_ne {c : Cell} (h : c ≠ Cell.null) (t : List Cell) :
    firstNonNull (c :: t) = c := by
  cases c
  · exact absurd rfl h
  · rfl
  · rfl
  · rfl

theorem range_map_getD (cs : List Cell) :
    (List.range cs.length).map (fun i => cs.getD i Cell.null) = cs := by
  apply List.ext_get
  · simp
  · intro i h1 h2
    have hi : i < cs.length := by simpa using h2
    simp [List.getD_eq_getElem cs Cell.null hi, List.getElem?_eq_getElem hi]

/-- C4 (counterexample): `dfC4soil` has two records for `F1` whose first
record has a missing `soil_name`; pandas `groupby('field_id').first()`
keeps the first non-null value per column, so the grouped row combines the
two records and equals neither — in particular the join did not keep only
the first record encountered. -/
theorem c4_counterexample :
    (groupFirst dfC4soil).rows = [("F1", [Cell.str "Loam", Cell.str "6.5"])]
  ∧ ("F1", [Cell.str "Loam", Cell.str "6.5"]) ∉ dfC4soil.rows :=
  ⟨by rfl, by decide⟩

/-- C4 (amended): the grouping used by the join keeps, per column, the
first non-missing value among a `field_id`'s records; in particular, when
the first record encountered for a key is complete (no missing values),
that record is kept in full as the group's row. -/
theorem c4_first_record_kept (df : DF) (k : String) (cs : List Cell)
    (rest : List (String × List Cell))
    (hf : df.rows.filter (fun p => p.1 == k) = (k, cs) :: rest)
    (hnn : Cell.null ∉ cs) (hlen : cs.length = df.cols.length) :
    (k, cs) ∈ (groupFirst df).rows := by
  have hrow : (k, cs) ∈ df.rows :=
    List.mem_of_mem_filter (hf ▸ List.mem_cons_self _ _)
  have hks : k ∈ sortedKeys df :=
    mem_sortedKeys.mpr (List.mem_map_of_mem Prod.fst hrow)
  have hval : (List.range df.cols.length).map (fun i =>
      firstNonNull ((rowsFor df k).map (fun cs' => cs'.getD i Cell.null))) = cs := by
    have hrf : rowsFor df k = cs :: rest.map Prod.snd := by
      unfold rowsFor; rw [hf]; rfl
    rw [hrf, ← hlen]
    have hcong : ∀ i ∈ List.range cs.length,
        firstNonNull ((cs :: rest.map Prod.snd).map (fun cs' => cs'.getD i Cell.null))
          = cs.getD i Cell.null := by
      intro i hi
      have hilt : i < cs.length := List.mem_range.mp hi
      rw [List.map_cons]
      refine firstNonNull_cons_of_ne ?_ _
      rw [List.getD_eq_getElem cs Cell.null hilt]
      intro hnull
      exact hnn (hnull ▸ List.getElem_mem hilt)
    rw [List.map_congr_left hcong]
    exact range_map_getD cs
  show (k, cs) ∈ (sortedKeys df).map (fun k =>
    (k, (List.range df.cols.length).map (fun i =>
      firstNonNull ((rowsFor df k).map (fun cs' => cs'.getD i Cell.null)))))
  rw [List.mem_map]
  exact ⟨k, hks, by rw [hval]⟩

/-- C4 (witness): with two complete records for `F1`, the first record is
the one kept by the grouping. -/
theorem c4_witness :
    Cell.null ∉ [Cell.str "Loam"]
  ∧ ("F1", [Cell.str "Loam"]) ∈ (groupFirst dfC4w).rows :=
  ⟨by decide,
   c4_first_record_kept dfC4w "F1" [Cell.str "Loam"]
     [("F1", [Cell.str "Clay"])] (by rfl) (by decide) (by decide)⟩

/-- C5: an attribute record whose `field_id` matches no base row
contributes no row to the left-joined output (its key does not occur in
the output), and — `JoinReport` modelled from the spec, since the scripts
compute none — the per-source orphan count counts exactly one per such
record: orphans and matched records partition the source's records. -/
theorem c5_orphans_dropped_counted (base attr : DF) :
    (∀ p ∈ attr.rows, p.1 ∉ base.keys → p.1 ∉ (mergeLeft base attr).keys)
  ∧ orphanCountSpec base attr + matchedRecordCount base attr
      = attr.rows.length := by
  constructor
  · intro p _ hnb hmem
    exact hnb (mem_keys_mergeLeft hmem)
  · unfold orphanCountSpec matchedRecordCount
    have h := length_filter_partition
      (fun q : String × List Cell => base.keys.contains q.1) attr.rows
    omega

/-- C5 (witness): the orphan record `F4` of `dfC5attr` yields no row in
the join with `dfC5base`. -/
theorem c5_witness :
    ("F4", [Cell.str "dry"]) ∈ dfC5attr.rows
  ∧ "F4" ∉ (mergeLeft dfC5base dfC5attr).keys :=
  ⟨by decide,
   (c5_orphans_dropped_counted dfC5base dfC5attr).1
     ("F4", [Cell.str "dry"]) (by decide) (by decide)⟩

theorem colVal_self_map_null :
    ∀ (l : List String) (c : String),
      colVal l (l.map fun _ => Cell.null) c = Cell.null := by
  intro l
  induction l with
  | nil => intro c; rfl
  | cons x xs ih =>
    intro c
    show colVal (x :: xs) (Cell.null :: xs.map fun _ => Cell.null) c = Cell.null
    by_cases h : (x == c) = true
    · simp only [colVal, h, if_true, List.headD_cons]
    · simp only [colVal, h, Bool.false_eq_true, if_false, List.tail_cons]
      exact ih c

theorem colVal_append_of_notin :
    ∀ (l1 : List String) (r1 : List Cell) (l2 : List String) (r2 : List Cell)
      (c : String), r1.length = l1.length → l1.contains c = false →
      colVal (l1 ++ l2) (r1 ++ r2) c = colVal l2 r2 c := by
  intro l1
  induction l1 with
  | nil =>
    intro r1 l2 r2 c hlen _
    have hr : r1 = [] := List.length_eq_zero.mp (by simpa using hlen)
    subst hr; rfl
  | cons x xs ih =>
    intro r1 l2 r2 c hlen hc
    have hcm : c ∉ x :: xs := by simpa using hc
    rcases r1 with _ | ⟨y, ys⟩
    · simp at hlen
    · have hx : (x == c) = false := by
        have : x ≠ c := fun h => hcm (h ▸ List.mem_cons_self x xs)
        simpa using this
      have hcs : xs.contains c = false := by
        have : c ∉ xs := fun h => hcm (List.mem_cons_of_mem _ h)
        simpa using this
      simp only [List.cons_append, colVal, hx, Bool.false_eq_true, if_false,
        List.tail_cons]
      exact ih ys l2 r2 c (by simpa using hlen) hcs

theorem missing_requiredCols_self :
    requiredCols.filter (fun c => !(requiredCols.contains c)) = [] := by decide

theorem requiredCols_length : requiredCols.length = 8 := by decide

theorem sel_requiredCols_self :
    ∀ r : List Cell, r.length = 8 →
      requiredCols.map (fun c => colVal requiredCols r c) = r := by
  intro r h
  rcases r with _ | ⟨a, r⟩; · simp at h
  rcases r with _ | ⟨b, r⟩; · simp at h
  rcases r with _ | ⟨c0, r⟩; · simp at h
  rcases r with _ | ⟨d, r⟩; · simp at h
  rcases r with _ | ⟨e, r⟩; · simp at h
  rcases r with _ | ⟨f, r⟩; · simp at h
  rcases r with _ | ⟨g, r⟩; · simp at h
  rcases r with _ | ⟨i, r⟩; · simp at h
  rcases r with _ | ⟨j, r⟩
  · rfl
  · simp at h

theorem standardize_cols (reproj : String → Cell → Cell) (gdf : GDF) :
    (standardize_schema reproj gdf).cols = requiredCols := by
  unfold standardize_schema
  split <;> rfl

theorem standardize_crs (reproj : String → Cell → Cell) (gdf : GDF) :
    (standardize_schema reproj gdf).crs = "EPSG:4326" := by
  unfold standardize_schema
  split
  · next h => simpa using h
  · rfl

theorem standardize_rows_length (reproj : String → Cell → Cell) (gdf : GDF) :
    (standardize_schema reproj gdf).rows.length = gdf.rows.length := by
  unfold standardize_schema
  split <;> simp

theorem standardize_row_len (reproj : String → Cell → Cell) (gdf : GDF) :
    ∀ r ∈ (standardize_schema reproj gdf).rows, r.length = 8 := by
  unfold standardize_schema
  split
  · intro r hr
    simp only [List.mem_map] at hr
    obtain ⟨r1, _, rfl⟩ := hr
    rw [List.length_map]
    exact requiredCols_length
  · intro r hr
    simp only [List.mem_map] at hr
    obtain ⟨r1, ⟨r2, _, rfl⟩, rfl⟩ := hr
    rw [List.length_set, List.length_map]
    exact requiredCols_length

/-- C8: `standardize_schema` is idempotent — applying it to its own
output changes nothing, for every input table (in particular for every
schema-conformant one) and every reprojection behavior. -/
theorem c8_standardize_idempotent (reproj : String → Cell → Cell) (gdf : GDF) :
    standardize_schema reproj (standardize_schema reproj gdf)
      = standardize_schema reproj gdf := by
  have hc : (standardize_schema reproj gdf).cols = requiredCols :=
    standardize_cols reproj gdf
  have hcrs : (standardize_schema reproj gdf).crs = "EPSG:4326" :=
    standardize_crs reproj gdf
  have hlen : ∀ r ∈ (standardize_schema reproj gdf).rows, r.length = 8 :=
    standardize_row_len reproj gdf
  have hbranch : ((standardize_schema reproj gdf).crs == "EPSG:4326") = true := by
    rw [hcrs]; rfl
  conv_lhs => rw [standardize_schema]
  rw [hc, missing_requiredCols_self, hbranch, if_pos rfl]
  simp only [List.map_nil, List.append_nil, List.map_id']
  have hid : (standardize_schema reproj gdf).rows.map
      (fun r => requiredCols.map (fun c => colVal requiredCols r c))
        = (standardize_schema reproj gdf).rows := by
    rw [List.map_congr_left (fun r hr => sel_requiredCols_self r (hlen r hr)),
      List.map_id']
  rw [hid, ← hc]

theorem getD_map_lt {α β : Type} (f : α → β) (l : List α) (j : Nat)
    (h : j < l.length) (d : α) (d' : β) :
    (l.map f).getD j d' = f (l.getD j d) := by
  rw [List.getD_eq_getElem _ _ (by simpa using h), List.getElem_map,
    List.getD_eq_getElem _ _ h]

theorem getD_set_of_ne (l : List Cell) (i j : Nat) (x : Cell) (h : i ≠ j) :
    (l.set i x).getD j Cell.null = l.getD j Cell.null := by
  simp [List.getD, List.getElem?_set_ne h]

theorem getD_set_self (l : List Cell) (i : Nat) (x : Cell) (h : i < l.length) :
    (l.set i x).getD i Cell.null = x := by
  rw [List.getD_eq_getElem _ _ (by simpa using h)]
  exact List.getElem_set_self ..

theorem colVal_notin_null :
    ∀ (l : List String) (r : List Cell) (c : String),
      l.contains c = false → colVal l r c = Cell.null := by
  intro l
  induction l with
  | nil => intro r c _; rfl
  | cons x xs ih =>
    intro r c hc
    have hcm : c ∉ x :: xs := by simpa using hc
    have hx : (x == c) = false := by
      have : x ≠ c := fun h => hcm (h ▸ List.mem_cons_self x xs)
      simpa using this
    have hcs : xs.contains c = false := by
      have : c ∉ xs := fun h => hcm (List.mem_cons_of_mem _ h)
      simpa using this
    simp only [colVal, hx, Bool.false_eq_true, if_false]
    exact ih r.tail c hcs

theorem colVal_append_null :
    ∀ (l1 : List String) (r1 : List Cell) (l2 : List String) (r2 : List Cell)
      (c : String), r1.length = l1.length →
      colVal l1 r1 c = Cell.null → colVal l2 r2 c = Cell.null →
      colVal (l1 ++ l2) (r1 ++ r2) c = Cell.null := by
  intro l1
  induction l1 with
  | nil =>
    intro r1 l2 r2 c hlen _ h2
    have hr : r1 = [] := List.length_eq_zero.mp (by simpa using hlen)
    subst hr
    simpa using h2
  | cons x xs ih =>
    intro r1 l2 r2 c hlen h1 h2
    rcases r1 with _ | ⟨y, ys⟩
    · simp at hlen
    · by_cases hx : (x == c) = true
      · simp only [colVal, hx, if_true, List.headD_cons] at h1
        simp only [List.cons_append, colVal, hx, if_true, List.headD_cons]
        exact h1
      · simp only [colVal, hx, Bool.false_eq_true, if_false, List.tail_cons] at h1
        simp only [List.cons_append, colVal, hx, Bool.false_eq_true, if_false,
          List.tail_cons]
        exact ih ys l2 r2 c (by simpa using hlen) h1 h2

theorem sel_missing_null (gdf : GDF) (r1 : List Cell)
    (hw : r1.length = gdf.cols.length) (j : Nat) (hj : j < 8)
    (hnull : colVal gdf.cols r1 (requiredCols.getD j "") = Cell.null) :
    (requiredCols.map (fun c =>
      colVal (gdf.cols ++ requiredCols.filter (fun c => !(gdf.cols.contains c)))
        (r1 ++ (requiredCols.filter (fun c => !(gdf.cols.contains c))).map
          (fun _ => Cell.null)) c)).getD j Cell.null = Cell.null := by
  rw [getD_map_lt _ _ j (by rw [requiredCols_length]; exact hj) "" Cell.null]
  exact colVal_append_null gdf.cols r1 _ _ _ hw hnull (colVal_self_map_null _ _)

theorem sel_absent_null (gdf : GDF) (r1 : List Cell)
    (hw : r1.length = gdf.cols.length) (j : Nat) (hj : j < 8)
    (habs : gdf.cols.contains (requiredCols.getD j "") = false) :
    (requiredCols.map (fun c =>
      colVal (gdf.cols ++ requiredCols.filter (fun c => !(gdf.cols.contains c)))
        (r1 ++ (requiredCols.filter (fun c => !(gdf.cols.contains c))).map
          (fun _ => Cell.null)) c)).getD j Cell.null = Cell.null :=
  sel_missing_null gdf r1 hw j hj (colVal_notin_null gdf.cols r1 _ habs)

theorem sel_missing_null_set (reproj : String → Cell → Cell) (gdf : GDF)
    (r1 : List Cell) (hw : r1.length = gdf.cols.length) (j : Nat) (hj : j < 8)
    (hnull : colVal gdf.cols r1 (requiredCols.getD j "") = Cell.null) :
    ((requiredCols.map (fun c =>
        colVal (gdf.cols ++ requiredCols.filter (fun c => !(gdf.cols.contains c)))
          (r1 ++ (requiredCols.filter (fun c => !(gdf.cols.contains c))).map
            (fun _ => Cell.null)) c)).set 7
      (match (requiredCols.map (fun c =>
          colVal (gdf.cols ++ requiredCols.filter (fun c => !(gdf.cols.contains c)))
            (r1 ++ (requiredCols.filter (fun c => !(gdf.cols.contains c))).map
              (fun _ => Cell.null)) c)).getD 7 Cell.null with
       | Cell.null => Cell.null
       | g => reproj gdf.crs g)).getD j Cell.null = Cell.null := by
  by_cases hj7 : j = 7
  · subst hj7
    have h7 := sel_missing_null gdf r1 hw 7 (by omega) hnull
    rw [getD_set_self _ _ _ (by rw [List.length_map, requiredCols_length]; omega)]
    rw [h7]
  · rw [getD_set_of_ne _ _ _ _ (fun h => hj7 h.symm)]
    exact sel_missing_null gdf r1 hw j hj hnull

/-- C6 (counterexample): evaluating `standardize_schema` on a table whose
present `acres` column (declared `float64` by the schema) holds a missing
value: the output still has the missing value in `acres` — no
schema-declared default replaced it (the schema carries no defaults at
all), contradicting the claim. -/
theorem c6_counterexample :
    standardize_schema (fun _ g => g) gdfC6
      = ⟨requiredCols,
         [[Cell.str "F1", Cell.null, Cell.null, Cell.null, Cell.null,
           Cell.null, Cell.null, Cell.null]], "EPSG:4326"⟩
  ∧ requiredCols.getD 2 "" = "acres"
  ∧ ((standardize_schema (fun _ g => g) gdfC6).rows.getD 0 []).getD 2 Cell.null
      = Cell.null :=
  ⟨by rfl, by rfl, by rfl⟩

/-- C6 (amended): the standardizer's output has exactly the schema's
columns in the schema's declared order, with one output row per input row;
a schema column absent from the input — the geometry column included — is
added with every value missing (None), and a missing value in any column
present in the input stays missing in the output at that column's schema
position (nothing replaces it) — the schema declares dtypes only, no
default values. -/
theorem c6_standardize_amended (reproj : String → Cell → Cell) (gdf : GDF)
    (hw : ∀ r ∈ gdf.rows, r.length = gdf.cols.length) :
    (standardize_schema reproj gdf).cols = requiredCols
  ∧ (standardize_schema reproj gdf).rows.length = gdf.rows.length
  ∧ (∀ j, j < 8 → gdf.cols.contains (requiredCols.getD j "") = false →
      ∀ r ∈ (standardize_schema reproj gdf).rows,
        r.getD j Cell.null = Cell.null)
  ∧ (∀ j, j < 8 → ∀ i, i < gdf.rows.length →
      colVal gdf.cols (gdf.rows.getD i []) (requiredCols.getD j "") = Cell.null →
      ((standardize_schema reproj gdf).rows.getD i []).getD j Cell.null
        = Cell.null) := by
  refine ⟨standardize_cols reproj gdf, standardize_rows_length reproj gdf,
    ?_, ?_⟩
  · intro j hj habs r hr
    unfold standardize_schema at hr
    split at hr
    · simp only [List.mem_map] at hr
      obtain ⟨r2, ⟨r1, hr1, rfl⟩, rfl⟩ := hr
      exact sel_absent_null gdf r1 (hw r1 hr1) j hj habs
    · simp only [List.mem_map] at hr
      obtain ⟨r3, ⟨r2, ⟨r1, hr1, rfl⟩, rfl⟩, rfl⟩ := hr
      exact sel_missing_null_set reproj gdf r1 (hw r1 hr1) j hj
        (colVal_notin_null gdf.cols r1 _ habs)
  · intro j hj i hi hnull
    have hmem : gdf.rows.getD i [] ∈ gdf.rows := by
      rw [List.getD_eq_getElem _ _ hi]
      exact List.getElem_mem hi
    unfold standardize_schema
    split
    · rw [getD_map_lt _ _ i (by rw [List.length_map]; exact hi) [] [],
        getD_map_lt _ _ i hi [] []]
      exact sel_missing_null gdf _ (hw _ hmem) j hj hnull
    · rw [getD_map_lt _ _ i (by rw [List.length_map, List.length_map]; exact hi)
          [] [],
        getD_map_lt _ _ i (by rw [List.length_map]; exact hi) [] [],
        getD_map_lt _ _ i hi [] []]
      exact sel_missing_null_set reproj gdf _ (hw _ hmem) j hj hnull

/-- C6 (witness): the amended statement applied to a concrete input with
an extra column and several absent schema columns. -/
theorem c6_witness :
    (standardize_schema (fun _ g => g) gdfC6w).cols = requiredCols
  ∧ (standardize_schema (fun _ g => g) gdfC6w).rows.length = gdfC6w.rows.length
  ∧ (∀ j, j < 8 → gdfC6w.cols.contains (requiredCols.getD j "") = false →
      ∀ r ∈ (standardize_schema (fun _ g => g) gdfC6w).rows,
        r.getD j Cell.null = Cell.null)
  ∧ (∀ j, j < 8 → ∀ i, i < gdfC6w.rows.length →
      colVal gdfC6w.cols (gdfC6w.rows.getD i []) (requiredCols.getD j "")
        = Cell.null →
      ((standardize_schema (fun _ g => g) gdfC6w).rows.getD i []).getD j Cell.null
        = Cell.null) :=
  c6_standardize_amended (fun _ g => g) gdfC6w (by decide)

/-- C7 (code bug): the schema declares `acres` as `float64`, yet
`standardize_schema` applies no coercion whatsoever — the non-numeric
string survives in the output unchanged and no `TypeCoercionError` (or any
error) is raised, although the method's docstring says "Enforce types and
column order". -/
theorem c7_no_coercion_eval :
    standardize_schema (fun _ g => g) gdfC7
      = ⟨requiredCols,
         [[Cell.str "F1", Cell.null, Cell.str "forty", Cell.null, Cell.null,
           Cell.null, Cell.null, Cell.null]], "EPSG:4326"⟩
  ∧ required_columns.getD 2 ("", "") = ("acres", "float64") :=
  ⟨by rfl, by rfl⟩

/-- C9: every field record in a successful result of
`_query_source_cooperative` has a strictly positive area in acres: the
`area_acres > 0` filter runs before the truncation and the column
selection, so no zero- or negative-area record survives. -/
theorem c9_query_area_positive (count : Nat) (fb : String)
    (queryRows : List RawField) (out : List FieldRec)
    (h : querySourceCooperative count fb queryRows = .ok out) :
    ∀ f ∈ out, 0 < f.area_acres := by
  intro f hf
  unfold querySourceCooperative at h
  split at h
  · exact absurd h (by simp)
  · simp only [Except.ok.injEq] at h
    subst h
    simp only [List.mem_map] at hf
    obtain ⟨p, hp, rfl⟩ := hf
    have hp' : p ∈ (queryRows.map (fun r => (r, r.geomArea / acreDivisor))).filter
        (fun p => decide ((0 : ℚ) < p.2)) := List.mem_of_mem_take hp
    have hpos := (List.mem_filter.mp hp').2
    simpa using hpos

/-- C9 (witness): a concrete raw row of about two acres passes the filter
and its derived record has positive area. -/
theorem c9_witness : 0 < recC9.area_acres := by
  have harea : (0 : ℚ) < 809372 / 100 / acreDivisor := by
    rw [acreDivisor]; norm_num
  have h : querySourceCooperative 5 "corn_belt" [rawC9] = .ok [recC9] := by
    unfold querySourceCooperative
    rw [if_neg (by decide)]
    simp only [rawC9, List.map_cons, List.map_nil, List.filter_cons,
      List.filter_nil, decide_eq_true harea, if_true, List.take_succ_cons,
      List.take_nil]
    rfl
  exact c9_query_area_positive 5 "corn_belt" [rawC9] [recC9] h recC9
    (List.mem_singleton.mpr rfl)

theorem step_validate {α : Type} (c0 : String) (cs : List String)
    (good : List String) (rest : Except DlError α) (msg : String) :
    isValErr (if c0 ∉ good ∨ ∃ x ∈ cs, x ∉ good
        then Except.error (DlError.valueError msg) else rest)
      = ((!decide (c0 ∈ good) || cs.any fun c => !decide (c ∈ good))
          || isValErr rest) := by
  by_cases hcr : c0 ∉ good ∨ ∃ x ∈ cs, x ∉ good
  · rw [if_pos hcr]
    rcases hcr with h | ⟨x, hx, hxv⟩
    · simp [isValErr, h]
    · have hany : cs.any (fun c => !decide (c ∈ good)) = true :=
        List.any_eq_true.mpr ⟨x, hx, by simp [hxv]⟩
      simp [isValErr, hany]
  · rw [if_neg hcr]
    push_neg at hcr
    have hany : cs.any (fun c => !decide (c ∈ good)) = false := by
      rw [List.any_eq_false]
      intro x hx
      simp [hcr.2 x hx]
    simp [hcr.1, hany]

theorem checks_isValErr (count : Int) (oregions ocrops : Option (List String)) :
    isValErr (downloadChecks count oregions ocrops)
      = invalidDownloadArgs count oregions ocrops := by
  have hcb : "corn_belt" ∈ validRegions := by decide
  have hcorn : "corn" ∈ validCrops := by decide
  have hsoy : "soybeans" ∈ validCrops := by decide
  unfold downloadChecks invalidDownloadArgs
  by_cases hc : count < 1
  · simp [hc, isValErr]
  · simp only [hc, if_false, decide_False, Bool.false_or]
    rcases oregions with _ | l
    · rcases ocrops with _ | m
      · simp [isEmpty_filter_eq, hcb, hcorn, hsoy, isValErr]
      · rcases m with _ | ⟨c0, cs⟩
        · simp [isEmpty_filter_eq, hcb, hcorn, hsoy, isValErr]
        · simp only [isEmpty_filter_eq, List.isEmpty_cons, Option.getD_some,
            Option.getD_none]
          simp [isEmpty_filter_eq, hcb]
          rw [step_validate]
          simp [isValErr]
    · rcases l with _ | ⟨r0, rs⟩
      · rcases ocrops with _ | m
        · simp [isEmpty_filter_eq, hcb, hcorn, hsoy, isValErr]
        · rcases m with _ | ⟨c0, cs⟩
          · simp [isEmpty_filter_eq, hcb, hcorn, hsoy, isValErr]
          · simp [isEmpty_filter_eq, hcb]
            rw [step_validate]
            simp [isValErr]
      · rcases ocrops with _ | m
        · simp [isEmpty_filter_eq, hcorn, hsoy]
          rw [step_validate]
          simp [isValErr]
        · rcases m with _ | ⟨c0, cs⟩
          · simp [isEmpty_filter_eq, hcorn, hsoy]
            rw [step_validate]
            simp [isValErr]
          · simp [isEmpty_filter_eq]
            rw [step_validate, step_validate]
            simp [isValErr, Bool.or_assoc]

theorem checks_err_shape {count : Int} {oregions ocrops : Option (List String)}
    {e : DlError} (h : downloadChecks count oregions ocrops = .error e) :
    ∃ m, e = .valueError m := by
  unfold downloadChecks at h
  dsimp only at h
  repeat' split at h
  all_goals
    first
    | (injection h with h1; exact ⟨_, h1.symm⟩)
    | exact absurd h (by simp)

theorem download_of_checks_err {count : Int}
    {oregions ocrops : Option (List String)} {e : DlError}
    (h : downloadChecks count oregions ocrops = .error e)
    (q : List RawField) :
    download count oregions ocrops q = .error e := by
  unfold download
  rw [h]
  rfl

/-- C10: the downloader validates its arguments before any query — a
`ValueError` is raised exactly when `count < 1` or the provided regions
list contains a name outside the registered regions or the provided crops
list contains a name outside the registered crops; and on such arguments
the result does not depend on what the data source would return (no query
is performed). -/
theorem c10_download_validates (count : Int)
    (oregions ocrops : Option (List String)) :
    (∀ q, isValErr (download count oregions ocrops q)
        = invalidDownloadArgs count oregions ocrops)
  ∧ (invalidDownloadArgs count oregions ocrops = true →
      ∀ q q', download count oregions ocrops q
        = download count oregions ocrops q') := by
  constructor
  · intro q
    rcases hchk : downloadChecks count oregions ocrops with e | rc
    · obtain ⟨m, rfl⟩ := checks_err_shape hchk
      rw [download_of_checks_err hchk q]
      have hinv := checks_isValErr count oregions ocrops
      rw [hchk] at hinv
      simp only [isValErr] at hinv ⊢
      exact hinv
    · have hfalse : invalidDownloadArgs count oregions ocrops = false := by
        have hinv := checks_isValErr count oregions ocrops
        rw [hchk] at hinv
        simpa [isValErr] using hinv.symm
      rw [hfalse]
      unfold download
      rw [hchk]
      show isValErr (match querySourceCooperative count.toNat
          (rc.1.headD "corn_belt") q with
        | .error e => .error (.runtimeError ("Data download failed: " ++ e))
        | .ok fields =>
          if !(validateFields fields) then
            .error (.runtimeError "Downloaded field data failed validation")
          else .ok fields) = false
      rcases querySourceCooperative count.toNat (rc.1.headD "corn_belt") q with e | fields
      · rfl
      · by_cases hv : validateFields fields = true <;> simp [isValErr, hv]
  · intro hbad q q'
    rcases hchk : downloadChecks count oregions ocrops with e | rc
    · rw [download_of_checks_err hchk q, download_of_checks_err hchk q']
    · exfalso
      have hinv := checks_isValErr count oregions ocrops
      rw [hchk, hbad] at hinv
      simp [isValErr] at hinv

/-- C10 (witness): with `count = 0` the validation fails with
`ValueError` and the result is independent of the data source. -/
theorem c10_witness :
    isValErr (download 0 none none []) = invalidDownloadArgs 0 none none
  ∧ download 0 none none [] = download 0 none none [rawC10] :=
  ⟨(c10_download_validates 0 none none).1 [],
   (c10_download_validates 0 none none).2 (by decide) [] [rawC10]⟩
